import Mathlib

/-!
Verification of the setlist retrieval-and-context-assembly pipeline.

Shallow embedding of the core components:
* `data_processor.py` (record normalizer): `process_setlist`, `_convert_date`,
  `_extract_songs`, `create_embedding_text`, `batch_process`;
* `database.py` (relational store adapter): `_get_or_create_artist`,
  `_get_or_create_venue`, `insert_setlist`, `get_setlists_by_ids`;
* `embeddings.py` (vector index adapter): `generate_embedding`, `search_similar`;
* `retriever.py` (retrieval orchestrator): `retrieve`, `format_context`.

Python `dict.get` on possibly-missing keys is modelled with `Option`;
Python truthiness of an optional string (`None` and `""` are falsy) is
modelled by `truthyStr`.  Floating-point scores are modelled as rationals.
-/

namespace SetlistAI

/-- Python truthiness of an optional string: `None` and `""` are falsy. -/
def truthyStr : Option String → Bool
  | none => false
  | some s => !(s == "")

/-! ## Raw records (the nested setlist.fm shape consumed by `process_setlist`) -/

/-- One entry of a raw set's `song` array; `song.get("name")`. -/
structure RawSong where
  name : Option String
  deriving DecidableEq

/-- One entry of `sets.set`: an optional `encore` marker and a `song` array. -/
structure RawSet where
  encore : Option Int
  song : List RawSong
  deriving DecidableEq

/-- A raw setlist record, with the nested paths of interest already flattened:
`artist.name`, `artist.mbid`, `venue.name`, `venue.city.name`,
`venue.city.country.name`, `eventDate`, `tour.name`, `sets.set`.
Any missing nested path is `none`. -/
structure RawSetlist where
  id : Option String
  artist_name : Option String
  artist_mbid : Option String
  venue_name : Option String
  city : Option String
  country : Option String
  eventDate : Option String
  tour_name : Option String
  sets : List RawSet
  deriving DecidableEq

/-- A processed song dict: `{"name": ..., "position": ..., "is_encore": ...}`. -/
structure Song where
  name : String
  position : Nat
  is_encore : Bool
  deriving DecidableEq

/-- The dict built by `process_setlist` (plus the `embedding_text` key that
`batch_process` adds later; absent is `none`). -/
structure ProcessedSetlist where
  setlist_id : Option String
  artist_name : Option String
  artist_mbid : Option String
  venue_name : Option String
  city : Option String
  country : Option String
  event_date : Option String
  tour_name : Option String
  songs : List Song
  total_songs : Nat
  total_encores : Nat
  embedding_text : Option String
  deriving DecidableEq

/-! ## Date conversion (`SetlistProcessor._convert_date`) -/

/-- Gregorian leap-year test, as `datetime` uses. -/
def isLeapYear (y : Nat) : Bool :=
  (y % 4 == 0 && y % 100 != 0) || y % 400 == 0

/-- Days in a month, as validated by the `datetime` constructor. -/
def daysInMonth (y m : Nat) : Nat :=
  if m = 2 then (if isLeapYear y then 29 else 28)
  else if m = 4 ∨ m = 6 ∨ m = 9 ∨ m = 11 then 30
  else 31

/-- The numeric value of a decimal digit character (the regex `\d`, ASCII). -/
def charDigit? (c : Char) : Option Nat :=
  if '0' ≤ c ∧ c ≤ '9' then some (c.toNat - '0'.toNat) else none

/-- Accumulating decimal value of a digit group; `none` on a non-digit. -/
def digitsValAux : List Char → Nat → Option Nat
  | [], acc => some acc
  | c :: rest, acc =>
    match charDigit? c with
    | some v => digitsValAux rest (acc * 10 + v)
    | none => none

/-- The numeric value of a non-empty, all-digit character group. -/
def digitsVal? : List Char → Option Nat
  | [] => none
  | cs => digitsValAux cs 0

/-- Split a character string at every literal dash (the dashes of the
`"%d-%m-%Y"` format; the digit groups of the format contain no dash, so the
regex decomposition of a matching string is exactly this split). -/
def splitDashAux : List Char → List Char → List (List Char)
  | [], acc => [acc.reverse]
  | c :: rest, acc =>
    if c = '-' then acc.reverse :: splitDashAux rest []
    else splitDashAux rest (c :: acc)

/-- The behaviour of `datetime.strptime(s, "%d-%m-%Y")`: `%d` and `%m` match
one or two digits (value-bounded), `%Y` matches exactly four digits, the
dashes are literal, the whole string must be consumed, and the resulting
calendar date must be a valid `datetime` (`1 ≤ year ≤ 9999`, day within the
month, else it raises).  Returns `(day, month, year)` on success. -/
def strptimeDMY (s : String) : Option (Nat × Nat × Nat) :=
  match splitDashAux s.data [] with
  | [dcs, mcs, ycs] =>
    match digitsVal? dcs, digitsVal? mcs, digitsVal? ycs with
    | some d, some m, some y =>
      if (dcs.length = 1 ∨ dcs.length = 2) ∧ 1 ≤ d ∧ d ≤ 31
          ∧ (mcs.length = 1 ∨ mcs.length = 2) ∧ 1 ≤ m ∧ m ≤ 12
          ∧ ycs.length = 4 ∧ 1 ≤ y ∧ y ≤ 9999 ∧ d ≤ daysInMonth y m
      then some (d, m, y) else none
    | _, _, _ => none
  | _ => none

/-- Zero-padded two-digit rendering, as `strftime` pads `%m` and `%d`. -/
def pad2 (n : Nat) : String :=
  (if n < 10 then "0" else "") ++ toString n

/-- Zero-padded four-digit rendering of the year (`strftime` `%Y`; padding of
years below 1000 is platform-dependent in C `strftime` and is modelled here as
zero-padded). -/
def pad4 (n : Nat) : String :=
  (if n < 10 then "000" else if n < 100 then "00" else if n < 1000 then "0" else "")
    ++ toString n

/-- `SetlistProcessor._convert_date`: parse `DD-MM-YYYY` strictly; on success
render `YYYY-MM-DD`; on any parse failure return the original string. -/
def _convert_date (s : String) : String :=
  match strptimeDMY s with
  | some (d, m, y) => pad4 y ++ "-" ++ pad2 m ++ "-" ++ pad2 d
  | none => s

/-! ## Song extraction (`SetlistProcessor._extract_songs`) -/

/-- Whether a set object is an encore set:
`"encore" in set_obj and set_obj["encore"] >= 1`. -/
def setIsEncore (st : RawSet) : Bool :=
  match st.encore with
  | some n => decide (1 ≤ n)
  | none => false

/-- The inner loop of `_extract_songs` over one set's `song` array: named
songs are appended with the running global position; unnamed (or empty-named)
songs are skipped and do not consume a position.  Returns the extracted songs
and the number of encore songs appended. -/
def extractFromSongs : List RawSong → Bool → Nat → List Song × Nat
  | [], _, _ => ([], 0)
  | s :: rest, isEnc, pos =>
    if truthyStr s.name then
      ({ name := s.name.getD "", position := pos, is_encore := isEnc }
          :: (extractFromSongs rest isEnc (pos + 1)).1,
        (if isEnc then 1 else 0) + (extractFromSongs rest isEnc (pos + 1)).2)
    else
      extractFromSongs rest isEnc pos

/-- The outer loop of `_extract_songs` over `sets.set`: the position counter
is global across sets (advanced by the number of songs appended per set). -/
def extractFromSets : List RawSet → Nat → List Song × Nat
  | [], _ => ([], 0)
  | st :: rest, pos =>
    ((extractFromSongs st.song (setIsEncore st) pos).1
        ++ (extractFromSets rest
              (pos + (extractFromSongs st.song (setIsEncore st) pos).1.length)).1,
      (extractFromSongs st.song (setIsEncore st) pos).2
        + (extractFromSets rest
              (pos + (extractFromSongs st.song (setIsEncore st) pos).1.length)).2)

/-- `SetlistProcessor._extract_songs`: walk the nested sets starting at
position 1; returns `(songs_list, total_encores)`. -/
def _extract_songs (raw : RawSetlist) : List Song × Nat :=
  extractFromSets raw.sets 1

/-- The structured dict built by `process_setlist` (before the
no-songs check decides whether it is returned). -/
def buildProcessed (raw : RawSetlist) : ProcessedSetlist :=
  { setlist_id := raw.id
    artist_name := raw.artist_name
    artist_mbid := raw.artist_mbid
    venue_name := raw.venue_name
    city := raw.city
    country := raw.country
    event_date :=
      match raw.eventDate with
      | some d => if d = "" then none else some (_convert_date d)
      | none => none
    tour_name := raw.tour_name
    songs := (_extract_songs raw).1
    total_songs := (_extract_songs raw).1.length
    total_encores := (_extract_songs raw).2
    embedding_text := none }

/-- `SetlistProcessor.process_setlist`: returns `None` when no songs were
extracted, otherwise the structured dict. -/
def process_setlist (raw : RawSetlist) : Option ProcessedSetlist :=
  if (_extract_songs raw).1.isEmpty then none
  else some (buildProcessed raw)

/-! ## Embedding text (`SetlistProcessor.create_embedding_text`) -/

/-- `SetlistProcessor.create_embedding_text`: the `parts` list is assembled
field by field (each guarded by Python truthiness), then newline-joined. -/
def create_embedding_text (p : ProcessedSetlist) : String :=
  String.intercalate "\n"
    ((if truthyStr p.artist_name then ["Artist: " ++ p.artist_name.getD ""] else [])
      ++ (if truthyStr p.event_date then ["Date: " ++ p.event_date.getD ""] else [])
      ++ (if ((if truthyStr p.venue_name then [p.venue_name.getD ""] else [])
              ++ (if truthyStr p.city then [p.city.getD ""] else [])
              ++ (if truthyStr p.country then [p.country.getD ""] else [])).isEmpty
          then []
          else ["Venue: " ++ String.intercalate ", "
                  ((if truthyStr p.venue_name then [p.venue_name.getD ""] else [])
                    ++ (if truthyStr p.city then [p.city.getD ""] else [])
                    ++ (if truthyStr p.country then [p.country.getD ""] else []))])
      ++ (if truthyStr p.tour_name then ["Tour: " ++ p.tour_name.getD ""] else [])
      ++ (if ((p.songs.filter (fun s => !s.is_encore)).map (fun s => s.name)).isEmpty
          then []
          else ["Setlist: " ++ String.intercalate ", "
                  ((p.songs.filter (fun s => !s.is_encore)).map (fun s => s.name))])
      ++ (if ((p.songs.filter (fun s => s.is_encore)).map (fun s => s.name)).isEmpty
          then []
          else ["Encores: " ++ String.intercalate ", "
                  ((p.songs.filter (fun s => s.is_encore)).map (fun s => s.name))])
      ++ ["Total songs: " ++ toString p.total_songs])

/-- `SetlistProcessor.batch_process`: processes each raw record, drops the
invalid ones silently, and adds `embedding_text` to each kept record. -/
def batch_process (raws : List RawSetlist) : List ProcessedSetlist :=
  raws.filterMap (fun raw =>
    (process_setlist raw).map
      (fun p => { p with embedding_text := some (create_embedding_text p) }))

/-! ## Spec-side helpers used to state the claims -/

/-- The names of the named songs of a raw `song` array, in order (a song
counts as named when its `name` is present and non-empty). -/
def namedNamesOf (ss : List RawSong) : List String :=
  ss.filterMap (fun s => if truthyStr s.name then s.name else none)

/-- All raw songs of a record, flattened across its sets in order. -/
def allRawSongs : List RawSet → List RawSong
  | [] => []
  | st :: rest => st.song ++ allRawSongs rest

/-- The names of the named songs of a raw record, in original nested order. -/
def namedNames (raw : RawSetlist) : List String :=
  namedNamesOf (allRawSongs raw.sets)

/-! ## Relational store adapter (`database.py`)

SQLite rows; `NOT NULL` columns are `String`, nullable columns are
`Option String`.  AUTOINCREMENT surrogate keys are modelled with `next…Id`
counters (`cursor.lastrowid`).  A raised `sqlite3.IntegrityError` is modelled
by `InsertErr`; note that SQLite raises the same exception class for a
duplicate primary key and for a `NOT NULL` violation, and `insert_setlist`
maps every caught exception to the return value `None` after rolling the
transaction back. -/

/-- A row of `artists` (`name` and `mbid` are `NOT NULL`). -/
structure ArtistRow where
  artist_id : Nat
  name : String
  mbid : String
  deriving DecidableEq

/-- A row of `venues` (`name` is `NOT NULL`; `city`, `country` nullable). -/
structure VenueRow where
  venue_id : Nat
  name : String
  city : Option String
  country : Option String
  deriving DecidableEq

/-- A row of `setlists`.  `setlist_id TEXT PRIMARY KEY` admits `NULL` in
SQLite (only `INTEGER PRIMARY KEY` implies `NOT NULL`), hence `Option`. -/
structure SetlistRow where
  setlist_id : Option String
  artist_id : Nat
  venue_id : Nat
  event_date : String
  tour_name : Option String
  total_songs : Nat
  embedding_text : Option String
  deriving DecidableEq

/-- A row of `songs`. -/
structure SongRow where
  song_id : Nat
  setlist_id : Option String
  song_name : String
  position : Nat
  is_encore : Bool
  deriving DecidableEq

/-- The relational store state. -/
structure DB where
  artists : List ArtistRow
  venues : List VenueRow
  setlists : List SetlistRow
  songs : List SongRow
  nextArtistId : Nat
  nextVenueId : Nat
  nextSongId : Nat
  deriving DecidableEq

/-- The `sqlite3.IntegrityError` causes that can arise inside
`insert_setlist`: a duplicate primary key, or a `NOT NULL` violation. -/
inductive InsertErr where
  | dupKey
  | notNullViolation
  deriving DecidableEq

/-- SQL equality of a stored non-null column against a bound parameter:
a `NULL` parameter never compares equal. -/
def sqlEqSP (stored : String) (param : Option String) : Bool :=
  match param with
  | some p => stored == p
  | none => false

/-- SQL equality of a stored nullable column against a bound parameter:
`NULL` on either side never compares equal. -/
def sqlEqOP (stored param : Option String) : Bool :=
  match stored, param with
  | some a, some b => a == b
  | _, _ => false

/-- The `WHERE name = ? AND city = ?` predicate of `_get_or_create_venue`
(country is not part of the match). -/
def venueMatchRow (name city : Option String) (v : VenueRow) : Bool :=
  sqlEqSP v.name name && sqlEqOP v.city city

/-- `SetlistDatabase._get_or_create_artist`: look up by `mbid`; insert when
absent (`NOT NULL` on `name` and `mbid`). -/
def _get_or_create_artist (db : DB) (name mbid : Option String) :
    Except InsertErr (DB × Nat) :=
  match db.artists.find? (fun a => sqlEqSP a.mbid mbid) with
  | some a => .ok (db, a.artist_id)
  | none =>
    match name, mbid with
    | some nm, some mb =>
      .ok ({ db with
              artists := db.artists ++ [⟨db.nextArtistId, nm, mb⟩]
              nextArtistId := db.nextArtistId + 1 },
            db.nextArtistId)
    | _, _ => .error .notNullViolation

/-- `SetlistDatabase._get_or_create_venue`: look up by `(name, city)`;
insert when absent, storing `country` (`NOT NULL` on `name` only). -/
def _get_or_create_venue (db : DB) (name city country : Option String) :
    Except InsertErr (DB × Nat) :=
  match db.venues.find? (venueMatchRow name city) with
  | some v => .ok (db, v.venue_id)
  | none =>
    match name with
    | some nm =>
      .ok ({ db with
              venues := db.venues ++ [⟨db.nextVenueId, nm, city, country⟩]
              nextVenueId := db.nextVenueId + 1 },
            db.nextVenueId)
    | none => .error .notNullViolation

/-- The `INSERT INTO setlists …` statement: `NOT NULL` on `event_date`, and
the primary-key uniqueness check on `setlist_id` (a `NULL` key never
conflicts in SQLite). -/
def insertSetlistRow (db : DB) (p : ProcessedSetlist) (artist_id venue_id : Nat) :
    Except InsertErr DB :=
  match p.event_date with
  | none => .error .notNullViolation
  | some ed =>
    if (match p.setlist_id with
        | some s => db.setlists.any (fun r => r.setlist_id == some s)
        | none => false)
    then .error .dupKey
    else .ok { db with
                setlists := db.setlists
                  ++ [⟨p.setlist_id, artist_id, venue_id, ed, p.tour_name,
                        p.total_songs, p.embedding_text⟩] }

/-- The song rows produced by the `INSERT INTO songs …` loop, with surrogate
keys starting at `k`. -/
def mkSongRows (k : Nat) (sid : Option String) : List Song → List SongRow
  | [] => []
  | s :: rest => ⟨k, sid, s.name, s.position, s.is_encore⟩ :: mkSongRows (k + 1) sid rest

/-- The `INSERT INTO songs …` loop of `insert_setlist`. -/
def insertSongs (db : DB) (sid : Option String) (songs : List Song) : DB :=
  { db with
      songs := db.songs ++ mkSongRows db.nextSongId sid songs
      nextSongId := db.nextSongId + songs.length }

/-- The body of `insert_setlist`'s `try` block: artist resolution, venue
resolution, the setlist row insert and the song row inserts, all on the same
uncommitted transaction; any `IntegrityError` aborts it. -/
def runInsert (db : DB) (p : ProcessedSetlist) :
    Except InsertErr (DB × Option String) := do
  let (db1, aid) ← _get_or_create_artist db p.artist_name p.artist_mbid
  let (db2, vid) ← _get_or_create_venue db1 p.venue_name p.city p.country
  let db3 ← insertSetlistRow db2 p aid vid
  pure (insertSongs db3 p.setlist_id p.songs, p.setlist_id)

/-- `SetlistDatabase.insert_setlist`: commit and return
`processed_setlist['setlist_id']` on success; on any caught exception
(`sqlite3.IntegrityError` or otherwise) roll back and return `None`. -/
def insert_setlist (db : DB) (p : ProcessedSetlist) : DB × Option String :=
  match runInsert db p with
  | .ok (db', sid) => (db', sid)
  | .error _ => (db, none)

/-! ## Hydrated records and the retrieval orchestrator (`retriever.py`) -/

/-- The dict returned by `SetlistDatabase.get_setlist_by_id` for a found id
(join of `setlists`, `artists`, `venues`, plus the ordered song list); the
`similarity_score` and `distance` keys are absent until `retrieve` attaches
them. -/
structure HydratedSetlist where
  setlist_id : String
  artist_name : String
  artist_mbid : String
  event_date : String
  tour_name : Option String
  total_songs : Nat
  embedding_text : Option String
  venue_name : String
  city : Option String
  country : Option String
  songs : List Song
  similarity_score : Option ℚ
  distance : Option ℚ
  deriving DecidableEq

/-- One element of the list returned by `EmbeddingManager.search_similar`. -/
structure SearchResult where
  setlist_id : String
  distance : ℚ
  similarity : ℚ
  text : String
  deriving DecidableEq

/-- `SetlistDatabase.get_setlists_by_ids`: per-id hydration in input order;
ids with no record are silently omitted.  The per-id lookup
(`get_setlist_by_id`) is abstracted as `lookup`. -/
def get_setlists_by_ids (lookup : String → Option HydratedSetlist)
    (setlist_ids : List String) : List HydratedSetlist :=
  setlist_ids.filterMap lookup

/-- The enrichment loop of `SetlistRetriever.retrieve`: scan the search
results for the first one with the same `setlist_id` and attach its
`similarity` and `distance`. -/
def attachScores (similar : List SearchResult) (s : HydratedSetlist) :
    HydratedSetlist :=
  match similar.find? (fun r => r.setlist_id == s.setlist_id) with
  | some r => { s with similarity_score := some r.similarity, distance := some r.distance }
  | none => s

/-- `SetlistRetriever.retrieve` after the vector search: hydrate the searched
ids in order, then enrich each hydrated record by id. -/
def retrieve (lookup : String → Option HydratedSetlist)
    (similar : List SearchResult) : List HydratedSetlist :=
  (get_setlists_by_ids lookup (similar.map (fun r => r.setlist_id))).map
    (attachScores similar)

/-! ## Context formatting (`SetlistRetriever.format_context`) -/

/-- Rounding of `q * 100` to the nearest integer, ties to even — the rounding
`format(x, '.2f')` applies to the decimal expansion. -/
def round2 (q : ℚ) : Int :=
  let n := q.num * 100
  let d := (q.den : Int)
  let f := Int.ediv n d
  let rem := n - f * d
  if 2 * rem < d then f
  else if d < 2 * rem then f + 1
  else if f % 2 = 0 then f else f + 1

/-- The Python format spec `.2f`: fixed-point rendering with exactly two
digits after the decimal point. -/
def formatFixed2 (q : ℚ) : String :=
  let n := round2 q
  (if n < 0 then "-" else "")
    ++ toString (n.natAbs / 100) ++ "."
    ++ (if n.natAbs % 100 < 10 then "0" else "") ++ toString (n.natAbs % 100)

/-- The names of the non-encore songs of a hydrated setlist, in order
(the `regular_songs` list of the formatting loop). -/
def regularNames (s : HydratedSetlist) : List String :=
  (s.songs.filter (fun x => !x.is_encore)).map (fun x => x.name)

/-- The names of the encore songs of a hydrated setlist, in order. -/
def encoreNames (s : HydratedSetlist) : List String :=
  (s.songs.filter (fun x => x.is_encore)).map (fun x => x.name)

/-- The venue line of one result block (city and country appended only when
truthy). -/
def venueLine (s : HydratedSetlist) : String :=
  "   Venue: " ++ s.venue_name
    ++ (if truthyStr s.city then ", " ++ s.city.getD "" else "")
    ++ (if truthyStr s.country then ", " ++ s.country.getD "" else "")
    ++ "\n"

/-- The `song_list` string of one result block: the first 15 regular songs,
comma-joined, and a truncation suffix naming the total count when there are
more than 15. -/
def songListStr (names : List String) : String :=
  String.intercalate ", " (names.take 15)
    ++ (if 15 < names.length then
          "... (" ++ toString names.length ++ " total songs)"
        else "")

/-- The `context_parts` entries appended for one result (1-based ordinal
`i`): header, venue, optional tour, optional setlist line, optional encores
line, total-songs line, and a relevance line when the `similarity_score` key
is present. -/
def blockParts (i : Nat) (s : HydratedSetlist) : List String :=
  ["\n" ++ toString i ++ ". " ++ s.artist_name ++ " - " ++ s.event_date ++ "\n",
    venueLine s]
    ++ (if truthyStr s.tour_name then ["   Tour: " ++ s.tour_name.getD "" ++ "\n"] else [])
    ++ (if (regularNames s).isEmpty then []
        else ["   Setlist: " ++ songListStr (regularNames s) ++ "\n"])
    ++ (if (encoreNames s).isEmpty then []
        else ["   Encores: " ++ String.intercalate ", " (encoreNames s) ++ "\n"])
    ++ ["   Total songs: " ++ toString s.total_songs ++ "\n"]
    ++ (match s.similarity_score with
        | some q => ["   Relevance: " ++ formatFixed2 q ++ "\n"]
        | none => [])

/-- The formatting loop over `enumerate(results, 1)`. -/
def allBlockParts : Nat → List HydratedSetlist → List String
  | _, [] => []
  | i, s :: rest => blockParts i s ++ allBlockParts (i + 1) rest

/-- `SetlistRetriever.format_context`: the fixed sentinel on an empty result
list, otherwise `''.join` of the header and all result blocks. -/
def format_context (results : List HydratedSetlist) : String :=
  if results.isEmpty then "No relevant setlists found."
  else String.join ("Retrieved concert setlists:\n" :: allBlockParts 1 results)

/-! ## Vector index adapter (`embeddings.py`)

The embedding provider (OpenAI client) is a collaborator: it is modelled as a
function returning `Except`, an exception being the `error` case.  The
ChromaDB collection query is modelled as a function returning the k-nearest
rows as `(id, distance, document)` triples. -/

/-- One row of the ChromaDB query payload. -/
structure QueryRow where
  id : String
  distance : ℚ
  document : String

/-- `EmbeddingManager.generate_embedding`: delegate to the provider; any
raised exception is caught and `None` is returned. -/
def generate_embedding (provider : String → Except String (List ℚ))
    (text : String) : Option (List ℚ) :=
  match provider text with
  | .ok e => some e
  | .error _ => none

/-- The distance-to-similarity conversion of `search_similar`:
`similarity = 1 - (distance / 2)`. -/
def similarityOfDistance (d : ℚ) : ℚ := 1 - d / 2

/-- `EmbeddingManager.search_similar`: embed the query (returning `[]` when
that fails), query the collection, and format each row, attaching the
converted similarity score. -/
def search_similar (provider : String → Except String (List ℚ))
    (collectionQuery : List ℚ → Nat → List QueryRow)
    (query : String) (top_k : Nat) : List SearchResult :=
  match generate_embedding provider query with
  | none => []
  | some qe =>
    (collectionQuery qe top_k).map (fun row =>
      { setlist_id := row.id
        distance := row.distance
        similarity := similarityOfDistance row.distance
        text := row.document })

/-! ## Spec-side rendering of the embedding text (claim C2)

`embeddingTextSpec` is a second definition following the specification's
words — a fixed-order, newline-joined concatenation of present-only fields
(a field is present when it is non-null and non-empty) — to be compared with
`create_embedding_text`, which is translated from the code. -/

/-- A present field value: the string when non-null and non-empty. -/
def presentVal (o : Option String) : Option String :=
  o.bind (fun a => if a = "" then none else some a)

/-- A line that is present only when the underlying list is non-empty. -/
def lineIfNonempty (g : List String → String) (vp : List String) : Option String :=
  match vp with
  | [] => none
  | x => some (g x)

/-- The specification's description of the embedding text: `Artist:`,
`Date:`, `Venue: name, city, country` (comma-joined, absent parts omitted),
`Tour:` (only if present), `Setlist:` with the regular song names, `Encores:`
with the encore song names (only if any), and `Total songs: n`, each on its
own line, lines for absent fields omitted. -/
def embeddingTextSpec (p : ProcessedSetlist) : String :=
  String.intercalate "\n" (List.filterMap id
    [(presentVal p.artist_name).map (fun a => "Artist: " ++ a),
      (presentVal p.event_date).map (fun d => "Date: " ++ d),
      lineIfNonempty (fun vp => "Venue: " ++ String.intercalate ", " vp)
        ([p.venue_name, p.city, p.country].filterMap presentVal),
      (presentVal p.tour_name).map (fun t => "Tour: " ++ t),
      lineIfNonempty (fun names => "Setlist: " ++ String.intercalate ", " names)
        ((p.songs.filter (fun s => !s.is_encore)).map (fun s => s.name)),
      lineIfNonempty (fun names => "Encores: " ++ String.intercalate ", " names)
        ((p.songs.filter (fun s => s.is_encore)).map (fun s => s.name)),
      some ("Total songs: " ++ toString p.total_songs)])

/-! ## Lemmas on song extraction -/

theorem extractFromSongs_names (ss : List RawSong) (e : Bool) (pos : Nat) :
    ((extractFromSongs ss e pos).1).map (fun s => s.name) = namedNamesOf ss := by
  induction ss generalizing pos with
  | nil => simp [extractFromSongs, namedNamesOf]
  | cons s rest ih =>
    by_cases h : truthyStr s.name
    · cases hn : s.name with
      | none => simp [truthyStr, hn] at h
      | some nm =>
        rw [hn] at h
        simp [extractFromSongs, namedNamesOf, List.filterMap_cons, hn, h, ih]
    · simp [extractFromSongs, namedNamesOf, List.filterMap_cons, h, ih]

theorem extractFromSongs_positions (ss : List RawSong) (e : Bool) (pos : Nat) :
    ((extractFromSongs ss e pos).1).map (fun s => s.position)
      = List.range' pos ((extractFromSongs ss e pos).1).length := by
  induction ss generalizing pos with
  | nil => simp [extractFromSongs]
  | cons s rest ih =>
    by_cases h : truthyStr s.name
    · simp [extractFromSongs, h, List.range'_succ, ih]
    · simp [extractFromSongs, h, ih]

theorem extractFromSets_names (sets : List RawSet) (pos : Nat) :
    ((extractFromSets sets pos).1).map (fun s => s.name)
      = namedNamesOf (allRawSongs sets) := by
  induction sets generalizing pos with
  | nil => simp [extractFromSets, allRawSongs, namedNamesOf]
  | cons st rest ih =>
    simp [extractFromSets, allRawSongs, namedNamesOf, List.filterMap_append,
      extractFromSongs_names, ih]

theorem extractFromSets_positions (sets : List RawSet) (pos : Nat) :
    ((extractFromSets sets pos).1).map (fun s => s.position)
      = List.range' pos ((extractFromSets sets pos).1).length := by
  induction sets generalizing pos with
  | nil => simp [extractFromSets]
  | cons st rest ih =>
    simp only [extractFromSets, List.map_append, List.length_append]
    rw [extractFromSongs_positions, ih, List.range'_append_1, Nat.add_comm]

/-- C1: for every raw setlist record with at least one named song,
`process_setlist` returns a processed record whose `total_songs` equals the
number of songs with non-empty names across all sets, whose songs carry
positions exactly `1..total_songs` (contiguous, no gaps or repeats, global
across sets), and whose song names are the named raw songs in original nested
order (unnamed songs consume no position). -/
theorem process_setlist_c1 (raw : RawSetlist) (h : namedNames raw ≠ []) :
    ∃ pr, process_setlist raw = some pr ∧
      pr.total_songs = (namedNames raw).length ∧
      pr.songs.map (fun s => s.position) = List.range' 1 pr.total_songs ∧
      pr.songs.map (fun s => s.name) = namedNames raw := by
  have hn : ((_extract_songs raw).1).map (fun s => s.name) = namedNames raw :=
    extractFromSets_names raw.sets 1
  have hlen : ((_extract_songs raw).1).length = (namedNames raw).length := by
    rw [← hn, List.length_map]
  have hne : ((_extract_songs raw).1).isEmpty = false := by
    rcases hcase : (_extract_songs raw).1 with _ | ⟨a, l⟩
    · rw [hcase] at hn
      exact absurd hn.symm (by simpa using h)
    · rfl
  refine ⟨buildProcessed raw, ?_, ?_, ?_, ?_⟩
  · simp [process_setlist, hne]
  · simpa [buildProcessed] using hlen
  · have hp := extractFromSets_positions raw.sets 1
    simpa [buildProcessed, _extract_songs, hlen.symm] using hp
  · simpa [buildProcessed] using hn

/-- C1 witness: a concrete record with two sets — a regular set containing a
named, an unnamed and an empty-named song, and an encore set with one named
song — yields `total_songs = 3`, positions `[1, 2, 3]` and the named song
names in nested order. -/
theorem process_setlist_c1_witness :
    namedNames (RawSetlist.mk (some "id1") (some "A") (some "mb") (some "V")
        (some "C") (some "X") (some "01-02-2003") none
        [RawSet.mk none [RawSong.mk (some "Song A"), RawSong.mk none,
            RawSong.mk (some ""), RawSong.mk (some "Song B")],
          RawSet.mk (some 1) [RawSong.mk (some "Song C")]]) ≠ [] ∧
    ∃ pr, process_setlist (RawSetlist.mk (some "id1") (some "A") (some "mb")
        (some "V") (some "C") (some "X") (some "01-02-2003") none
        [RawSet.mk none [RawSong.mk (some "Song A"), RawSong.mk none,
            RawSong.mk (some ""), RawSong.mk (some "Song B")],
          RawSet.mk (some 1) [RawSong.mk (some "Song C")]]) = some pr ∧
      pr.total_songs = (namedNames (RawSetlist.mk (some "id1") (some "A")
        (some "mb") (some "V") (some "C") (some "X") (some "01-02-2003") none
        [RawSet.mk none [RawSong.mk (some "Song A"), RawSong.mk none,
            RawSong.mk (some ""), RawSong.mk (some "Song B")],
          RawSet.mk (some 1) [RawSong.mk (some "Song C")]])).length ∧
      pr.songs.map (fun s => s.position) = List.range' 1 pr.total_songs ∧
      pr.songs.map (fun s => s.name) = namedNames (RawSetlist.mk (some "id1")
        (some "A") (some "mb") (some "V") (some "C") (some "X")
        (some "01-02-2003") none
        [RawSet.mk none [RawSong.mk (some "Song A"), RawSong.mk none,
            RawSong.mk (some ""), RawSong.mk (some "Song B")],
          RawSet.mk (some 1) [RawSong.mk (some "Song C")]]) :=
  ⟨by decide, process_setlist_c1 _ (by decide)⟩

/-- C7: for every raw setlist record with zero named songs across all sets,
`process_setlist` returns `none` (not an error or a record), and such a
record contributes nothing to `batch_process`'s output — the list that is
persisted to the relational store and embedded into the vector index. -/
theorem process_setlist_c7 (raw : RawSetlist) (h : namedNames raw = []) :
    process_setlist raw = none ∧
    ∀ pre post : List RawSetlist,
      batch_process (pre ++ raw :: post) = batch_process pre ++ batch_process post := by
  have hsongs : (_extract_songs raw).1 = [] := by
    have hn : ((_extract_songs raw).1).map (fun s => s.name) = namedNames raw :=
      extractFromSets_names raw.sets 1
    rw [h] at hn
    exact List.map_eq_nil_iff.mp hn
  have hnone : process_setlist raw = none := by simp [process_setlist, hsongs]
  refine ⟨hnone, fun pre post => ?_⟩
  simp [batch_process, List.filterMap_append, List.filterMap_cons, hnone]

/-- C7 witness: a concrete record whose only songs are unnamed or
empty-named is normalized to `none` and dropped by `batch_process`. -/
theorem process_setlist_c7_witness :
    namedNames (RawSetlist.mk (some "id2") (some "A") (some "mb") none none
        none none none
        [RawSet.mk none [RawSong.mk none, RawSong.mk (some "")],
          RawSet.mk (some 2) []]) = [] ∧
    process_setlist (RawSetlist.mk (some "id2") (some "A") (some "mb") none
        none none none none
        [RawSet.mk none [RawSong.mk none, RawSong.mk (some "")],
          RawSet.mk (some 2) []]) = none ∧
    batch_process ([] ++ (RawSetlist.mk (some "id2") (some "A") (some "mb")
        none none none none none
        [RawSet.mk none [RawSong.mk none, RawSong.mk (some "")],
          RawSet.mk (some 2) []]) :: []) = batch_process [] ++ batch_process [] :=
  ⟨by decide,
    (process_setlist_c7 _ (by decide)).1,
    (process_setlist_c7 _ (by decide)).2 [] []⟩

/-! ## Lemmas for the embedding-text refinement (C2) -/

theorem filterMapIdCons (o : Option α) (l : List (Option α)) :
    List.filterMap id (o :: l) = o.toList ++ List.filterMap id l := by
  cases o <;> simp

theorem presentValMapToList (o : Option String) (f : String → String) :
    ((presentVal o).map f).toList = (if truthyStr o then [f (o.getD "")] else []) := by
  cases o with
  | none => simp [presentVal, truthyStr]
  | some a => by_cases h : a = "" <;> simp [presentVal, truthyStr, h]

theorem presentValToList (o : Option String) :
    (presentVal o).toList = (if truthyStr o then [o.getD ""] else []) := by
  cases o with
  | none => simp [presentVal, truthyStr]
  | some a => by_cases h : a = "" <;> simp [presentVal, truthyStr, h]

theorem lineIfNonemptyToList (g : List String → String) (vp : List String) :
    (lineIfNonempty g vp).toList = (if vp.isEmpty then [] else [g vp]) := by
  cases vp <;> simp [lineIfNonempty]

theorem filterMapConsToList (f : α → Option β) (a : α) (l : List α) :
    List.filterMap f (a :: l) = (f a).toList ++ List.filterMap f l := by
  cases h : f a <;> simp [List.filterMap_cons, h]

theorem venuePartsEq (o1 o2 o3 : Option String) :
    [o1, o2, o3].filterMap presentVal
      = (if truthyStr o1 then [o1.getD ""] else [])
        ++ (if truthyStr o2 then [o2.getD ""] else [])
        ++ (if truthyStr o3 then [o3.getD ""] else []) := by
  simp [filterMapConsToList, presentValToList]

/-- C2: for every processed setlist, `create_embedding_text` produces exactly
the newline-joined, fixed-order concatenation of present-only fields the
specification describes (`embeddingTextSpec`): Artist, Date, comma-joined
Venue with absent parts omitted, Tour only if present, comma-joined regular
Setlist, Encores only if any, and the final total-songs line. -/
theorem create_embedding_text_c2 (p : ProcessedSetlist) :
    create_embedding_text p = embeddingTextSpec p := by
  simp only [create_embedding_text, embeddingTextSpec, filterMapIdCons,
    List.filterMap_nil, presentValMapToList, lineIfNonemptyToList,
    venuePartsEq, Option.toList_some, List.append_nil, List.append_assoc]

/-! ## Date conversion (C8) -/

theorem pad2Len : ∀ n : Nat, n < 100 → (pad2 n).length = 2 := by decide

/-- C8: `_convert_date` strictly parses day-month-year text (per the
`%d-%m-%Y` format, including calendar validation) and renders the parsed
date as zero-padded `YYYY-MM-DD`; every input failing the parse is returned
unchanged instead of failing the record. -/
theorem convert_date_c8 :
    (∀ s : String, strptimeDMY s = none → _convert_date s = s) ∧
    (∀ s d m y, strptimeDMY s = some (d, m, y) →
      _convert_date s = pad4 y ++ "-" ++ pad2 m ++ "-" ++ pad2 d ∧
      1 ≤ d ∧ d ≤ daysInMonth y m ∧ 1 ≤ m ∧ m ≤ 12 ∧ 1 ≤ y ∧ y ≤ 9999 ∧
      (pad2 m).length = 2 ∧ (pad2 d).length = 2) := by
  constructor
  · intro s h
    simp [_convert_date, h]
  · intro s d m y h
    have hconv : _convert_date s = pad4 y ++ "-" ++ pad2 m ++ "-" ++ pad2 d := by
      simp [_convert_date, h]
    unfold strptimeDMY at h
    split at h
    · split at h
      · split at h
        · rename_i hcond
          simp only [Option.some.injEq, Prod.mk.injEq] at h
          obtain ⟨rfl, rfl, rfl⟩ := h
          obtain ⟨_, h1d, hd31, _, h1m, hm12, _, h1y, hy, hdim⟩ := hcond
          exact ⟨hconv, h1d, hdim, h1m, hm12, h1y, hy,
            pad2Len _ (by omega), pad2Len _ (by omega)⟩
        · exact absurd h (by simp)
      · exact absurd h (by simp)
    · exact absurd h (by simp)

/-- C8 witness: `"7-3-1999"` parses (day 7, month 3, year 1999) and renders
as `"1999-03-07"`; `"31-02-2020"` fails the calendar check and is returned
unchanged; `"2020-01-01"` (wrong component order: day 2020) also fails and
passes through unchanged. -/
theorem convert_date_c8_witness :
    strptimeDMY "7-3-1999" = some (7, 3, 1999) ∧
    _convert_date "7-3-1999" = pad4 1999 ++ "-" ++ pad2 3 ++ "-" ++ pad2 7 ∧
    _convert_date "7-3-1999" = "1999-03-07" ∧
    strptimeDMY "31-02-2020" = none ∧
    _convert_date "31-02-2020" = "31-02-2020" ∧
    strptimeDMY "2020-01-01" = none ∧
    _convert_date "2020-01-01" = "2020-01-01" :=
  ⟨by decide,
    (convert_date_c8.2 "7-3-1999" 7 3 1999 (by decide)).1,
    by decide,
    by decide,
    convert_date_c8.1 "31-02-2020" (by decide),
    by decide,
    convert_date_c8.1 "2020-01-01" (by decide)⟩

/-! ## Lemmas about `insert_setlist` (C3) -/

theorem getOrCreateArtist_tables {db : DB} {n m : Option String} {db1 : DB}
    {aid : Nat} (h : _get_or_create_artist db n m = .ok (db1, aid)) :
    db1.setlists = db.setlists ∧ db1.songs = db.songs
      ∧ db1.nextSongId = db.nextSongId := by
  unfold _get_or_create_artist at h
  split at h
  · cases h; exact ⟨rfl, rfl, rfl⟩
  · split at h
    · cases h; exact ⟨rfl, rfl, rfl⟩
    · cases h

theorem getOrCreateVenue_tables {db : DB} {n c k : Option String} {db1 : DB}
    {vid : Nat} (h : _get_or_create_venue db n c k = .ok (db1, vid)) :
    db1.setlists = db.setlists ∧ db1.songs = db.songs
      ∧ db1.nextSongId = db.nextSongId := by
  unfold _get_or_create_venue at h
  split at h
  · cases h; exact ⟨rfl, rfl, rfl⟩
  · split at h
    · cases h; exact ⟨rfl, rfl, rfl⟩
    · cases h

theorem insertSetlistRow_ok {db : DB} {p : ProcessedSetlist} {aid vid : Nat}
    {db3 : DB} (h : insertSetlistRow db p aid vid = .ok db3) :
    (∃ ed, p.event_date = some ed ∧
      db3.setlists = db.setlists
        ++ [⟨p.setlist_id, aid, vid, ed, p.tour_name, p.total_songs,
              p.embedding_text⟩]) ∧
    db3.songs = db.songs ∧ db3.nextSongId = db.nextSongId ∧
    (match p.setlist_id with
      | some s => db.setlists.any (fun r => r.setlist_id == some s)
      | none => false) = false := by
  unfold insertSetlistRow at h
  split at h
  · cases h
  · rename_i ed heq
    split at h
    · cases h
    · rename_i hdup
      cases h
      exact ⟨⟨ed, heq, rfl⟩, rfl, rfl, by simpa using hdup⟩

theorem runInsert_ok {db : DB} {p : ProcessedSetlist} {db' : DB}
    {sid : Option String} (h : runInsert db p = .ok (db', sid)) :
    sid = p.setlist_id ∧
    (∃ row : SetlistRow, row.setlist_id = p.setlist_id ∧
      db'.setlists = db.setlists ++ [row]) ∧
    (∃ k, db'.songs = db.songs ++ mkSongRows k p.setlist_id p.songs) ∧
    (match p.setlist_id with
      | some s => db.setlists.any (fun r => r.setlist_id == some s)
      | none => false) = false := by
  unfold runInsert at h
  cases hA : _get_or_create_artist db p.artist_name p.artist_mbid with
  | error e => rw [hA] at h; simp [Bind.bind, Except.bind] at h
  | ok res1 =>
    obtain ⟨db1, aid⟩ := res1
    rw [hA] at h
    simp only [Bind.bind, Except.bind] at h
    cases hV : _get_or_create_venue db1 p.venue_name p.city p.country with
    | error e => rw [hV] at h; simp [Except.bind] at h
    | ok res2 =>
      obtain ⟨db2, vid⟩ := res2
      rw [hV] at h
      simp only [Except.bind] at h
      cases hR : insertSetlistRow db2 p aid vid with
      | error e => rw [hR] at h; simp [Except.bind] at h
      | ok db3 =>
        rw [hR] at h
        simp only [Except.bind, pure, Except.pure,
          Except.ok.injEq, Prod.mk.injEq] at h
        obtain ⟨hdb, hsid⟩ := h
        obtain ⟨hA1, hA2, hA3⟩ := getOrCreateArtist_tables hA
        obtain ⟨hV1, hV2, hV3⟩ := getOrCreateVenue_tables hV
        obtain ⟨⟨ed, hed, hrow⟩, hsongs, hnext, hdup⟩ := insertSetlistRow_ok hR
        refine ⟨hsid.symm,
          ⟨⟨p.setlist_id, aid, vid, ed, p.tour_name, p.total_songs,
              p.embedding_text⟩, rfl, ?_⟩,
          ⟨db3.nextSongId, ?_⟩, ?_⟩
        · rw [← hdb]
          show db3.setlists = _
          rw [hrow, hV1, hA1]
        · rw [← hdb]
          show db3.songs ++ _ = _
          rw [hsongs, hV2, hA2]
        · rw [hV1, hA1] at hdup
          exact hdup

/-- C3 (amended): `insert_setlist` resolves the artist and venue and inserts
the setlist row and all of its song rows in one atomic transaction — every
outcome either leaves the `setlists` and `songs` tables exactly unchanged
(rollback; the call reports `none`) or appends exactly one setlist row and
all song rows (commit); in particular a second insert of an already-present
setlist id rolls back, leaves the whole database (hence all song counts)
unchanged and returns `none`.  The duplicate primary key is caught by the
dedicated `IntegrityError` handler and treated as expected and non-fatal,
but it is reported to the caller as the same `None` sentinel as any other
insert failure, not as a distinct DuplicateKey error kind (see the
counterexample). -/
theorem insert_setlist_c3 :
    (∀ (db : DB) (p : ProcessedSetlist) (s : String),
      p.setlist_id = some s →
      db.setlists.any (fun r => r.setlist_id == some s) = true →
      insert_setlist db p = (db, none)) ∧
    (∀ (db : DB) (p : ProcessedSetlist),
      ((insert_setlist db p).1 = db ∧ (insert_setlist db p).2 = none) ∨
      ((insert_setlist db p).2 = p.setlist_id ∧
        (∃ row : SetlistRow, row.setlist_id = p.setlist_id ∧
          (insert_setlist db p).1.setlists = db.setlists ++ [row]) ∧
        (∃ k, (insert_setlist db p).1.songs
          = db.songs ++ mkSongRows k p.setlist_id p.songs))) := by
  constructor
  · intro db p s hsid hany
    cases hrun : runInsert db p with
    | error e => simp [insert_setlist, hrun]
    | ok res =>
      obtain ⟨db', sid⟩ := res
      exfalso
      obtain ⟨-, -, -, hdup⟩ := runInsert_ok hrun
      rw [hsid] at hdup
      simp [hany] at hdup
  · intro db p
    cases hrun : runInsert db p with
    | error e => left; simp [insert_setlist, hrun]
    | ok res =>
      obtain ⟨db', sid⟩ := res
      right
      obtain ⟨hsid, hrow, hsongs, -⟩ := runInsert_ok hrun
      refine ⟨?_, ?_, ?_⟩ <;> simp [insert_setlist, hrun, hsid, hrow, hsongs]

/-! Concrete database states for the C3 witness and counterexample. -/

/-- A database already holding setlist `"sl1"` with one song. -/
def exampleDB : DB :=
  { artists := [⟨1, "Artist A", "mbA"⟩]
    venues := [⟨1, "Venue V", some "City C", some "Country X"⟩]
    setlists := [⟨some "sl1", 1, 1, "2003-02-01", none, 1, none⟩]
    songs := [⟨1, some "sl1", "Song A", 1, false⟩]
    nextArtistId := 2
    nextVenueId := 2
    nextSongId := 2 }

/-- A processed setlist whose id `"sl1"` is already present in `exampleDB`. -/
def dupProcessed : ProcessedSetlist :=
  { setlist_id := some "sl1"
    artist_name := some "Artist A"
    artist_mbid := some "mbA"
    venue_name := some "Venue V"
    city := some "City C"
    country := some "Country X"
    event_date := some "2003-02-01"
    tour_name := none
    songs := [⟨"Song A", 1, false⟩]
    total_songs := 1
    total_encores := 0
    embedding_text := some "Artist: Artist A" }

/-- A processed setlist with a fresh id `"sl2"` but a `NULL` event date
(violating `event_date TEXT NOT NULL` — a non-duplicate integrity fault). -/
def nullDateProcessed : ProcessedSetlist :=
  { setlist_id := some "sl2"
    artist_name := some "Artist A"
    artist_mbid := some "mbA"
    venue_name := some "Venue V"
    city := some "City C"
    country := some "Country X"
    event_date := none
    tour_name := none
    songs := [⟨"Song B", 1, false⟩]
    total_songs := 1
    total_encores := 0
    embedding_text := some "Artist: Artist A" }

/-- C3 counterexample: the claim that a duplicate primary key is reported to
the caller as a distinct DuplicateKey error kind is false — internally the
duplicate raises `dupKey` while a `NOT NULL` fault raises
`notNullViolation`, but both are caught and reported to the caller as the
identical `None` return value, so the caller cannot distinguish a duplicate
from a generic integrity fault. -/
theorem insert_setlist_c3_counterexample :
    runInsert exampleDB dupProcessed = .error .dupKey ∧
    runInsert exampleDB nullDateProcessed = .error .notNullViolation ∧
    insert_setlist exampleDB dupProcessed = (exampleDB, none) ∧
    insert_setlist exampleDB nullDateProcessed = (exampleDB, none) ∧
    (insert_setlist exampleDB dupProcessed).2
      = (insert_setlist exampleDB nullDateProcessed).2 :=
  ⟨rfl, rfl, rfl, rfl, rfl⟩

/-- C3 witness: re-inserting the already-present id `"sl1"` leaves the
database (hence all song counts) unchanged and returns `none`. -/
theorem insert_setlist_c3_witness :
    dupProcessed.setlist_id = some "sl1" ∧
    exampleDB.setlists.any (fun r => r.setlist_id == some "sl1") = true ∧
    insert_setlist exampleDB dupProcessed = (exampleDB, none) :=
  ⟨rfl, rfl, insert_setlist_c3.1 exampleDB dupProcessed "sl1" rfl rfl⟩

/-! ## Venue deduplication (C9) -/

theorem find?_append_of_none {p : α → Bool} {l1 : List α} (l2 : List α)
    (h : l1.find? p = none) : (l1 ++ l2).find? p = l2.find? p := by
  rw [List.find?_append, h, Option.none_or]

/-- C9: two venue insertions with identical name and city but different
country leave exactly one matching venue row: the first call inserts the row
(storing the first country), the second call matches on the `(name, city)`
pair only — country excluded from the match key — returns the first call's
`venue_id`, and leaves the state unchanged. -/
theorem get_or_create_venue_c9 (db : DB) (nm ct : String) (c1 c2 : Option String)
    (hfind : db.venues.find? (venueMatchRow (some nm) (some ct)) = none)
    (hdiff : c1 ≠ c2) :
    ∃ db1, _get_or_create_venue db (some nm) (some ct) c1
        = .ok (db1, db.nextVenueId) ∧
      db1.venues = db.venues ++ [⟨db.nextVenueId, nm, some ct, c1⟩] ∧
      db.venues.countP (venueMatchRow (some nm) (some ct)) = 0 ∧
      db1.venues.countP (venueMatchRow (some nm) (some ct)) = 1 ∧
      _get_or_create_venue db1 (some nm) (some ct) c2
        = .ok (db1, db.nextVenueId) := by
  have hmatch : venueMatchRow (some nm) (some ct)
      ⟨db.nextVenueId, nm, some ct, c1⟩ = true := by
    simp [venueMatchRow, sqlEqSP, sqlEqOP]
  have hcount0 : db.venues.countP (venueMatchRow (some nm) (some ct)) = 0 :=
    List.countP_eq_zero.mpr (List.find?_eq_none.mp hfind)
  refine ⟨{ db with
              venues := db.venues ++ [⟨db.nextVenueId, nm, some ct, c1⟩]
              nextVenueId := db.nextVenueId + 1 },
    ?_, rfl, hcount0, ?_, ?_⟩
  · unfold _get_or_create_venue
    rw [hfind]
  · rw [List.countP_append, hcount0, List.countP_cons]
    simp [hmatch]
  · unfold _get_or_create_venue
    rw [find?_append_of_none _ hfind, List.find?_cons_of_pos _ hmatch]

/-- C9 witness: on an empty database, inserting venue `("V", "C", "X")` and
then `("V", "C", "Y")` yields one matching row and the same `venue_id`. -/
theorem get_or_create_venue_c9_witness :
    (DB.mk [] [] [] [] 1 1 1).venues.find?
        (venueMatchRow (some "V") (some "C")) = none ∧
    (some "X" : Option String) ≠ some "Y" ∧
    ∃ db1, _get_or_create_venue (DB.mk [] [] [] [] 1 1 1) (some "V") (some "C")
          (some "X") = .ok (db1, (DB.mk [] [] [] [] 1 1 1).nextVenueId) ∧
      db1.venues = (DB.mk [] [] [] [] 1 1 1).venues
        ++ [⟨(DB.mk [] [] [] [] 1 1 1).nextVenueId, "V", some "C", some "X"⟩] ∧
      (DB.mk [] [] [] [] 1 1 1).venues.countP
        (venueMatchRow (some "V") (some "C")) = 0 ∧
      db1.venues.countP (venueMatchRow (some "V") (some "C")) = 1 ∧
      _get_or_create_venue db1 (some "V") (some "C") (some "Y")
        = .ok (db1, (DB.mk [] [] [] [] 1 1 1).nextVenueId) :=
  ⟨rfl, by decide,
    get_or_create_venue_c9 (DB.mk [] [] [] [] 1 1 1) "V" "C" (some "X")
      (some "Y") rfl (by decide)⟩

/-! ## Retrieval merge (C4) -/

theorem find?_of_nodup_ids (similar : List SearchResult) (r : SearchResult)
    (hr : r ∈ similar)
    (hnd : (similar.map (fun x => x.setlist_id)).Nodup) :
    similar.find? (fun x => x.setlist_id == r.setlist_id) = some r := by
  induction similar with
  | nil => cases hr
  | cons a rest ih =>
    rcases List.mem_cons.mp hr with rfl | hmem
    · exact List.find?_cons_of_pos _ (by simp)
    · have hnotmem : a.setlist_id ∉ rest.map (fun x => x.setlist_id) :=
        (List.nodup_cons.mp (by simpa using hnd)).1
      have hne : ¬(a.setlist_id == r.setlist_id) = true := by
        intro hcon
        exact hnotmem (by
          rw [show a.setlist_id = r.setlist_id from by simpa using hcon]
          exact List.mem_map_of_mem _ hmem)
      have hne' : ¬((fun x : SearchResult => x.setlist_id == r.setlist_id) a = true) := hne
      rw [List.find?_cons_of_neg rest hne']
      exact ih hmem (List.nodup_cons.mp (by simpa using hnd)).2

/-- C4: `retrieve` hydrates the ids returned by the vector search preserving
the similarity ordering of the search (its output is exactly the search-hit
list restricted to ids that hydrate, in search order), may return fewer
records than requested ids (missing ids are silently dropped), and attaches
each hydrated record's similarity and distance by matching on setlist id —
the scores merged onto a record are those of the search result with the same
id, not of the result at the same position. -/
theorem retrieve_c4 (lookup : String → Option HydratedSetlist)
    (similar : List SearchResult)
    (hL : ∀ id s, lookup id = some s → s.setlist_id = id)
    (hnd : (similar.map (fun r => r.setlist_id)).Nodup) :
    retrieve lookup similar
      = similar.filterMap (fun r => (lookup r.setlist_id).map
          (fun s => { s with similarity_score := some r.similarity,
                              distance := some r.distance })) ∧
    (retrieve lookup similar).length ≤ similar.length := by
  have hmain : retrieve lookup similar
      = similar.filterMap (fun r => (lookup r.setlist_id).map
          (fun s => { s with similarity_score := some r.similarity,
                              distance := some r.distance })) := by
    unfold retrieve get_setlists_by_ids
    rw [List.filterMap_map, List.map_filterMap]
    apply List.filterMap_congr
    intro r hr
    cases hl : lookup r.setlist_id with
    | none => simp [Function.comp, hl]
    | some s =>
      have hsid : s.setlist_id = r.setlist_id := hL _ _ hl
      have hfind := find?_of_nodup_ids similar r hr hnd
      simp [Function.comp, hl, attachScores, hsid, hfind]
  refine ⟨hmain, ?_⟩
  rw [hmain]
  exact List.length_filterMap_le _ _

/-- A three-hit search result list for the C4 witness (`"b"` has no
relational record and is dropped; scores follow each id). -/
def exampleSimilar : List SearchResult :=
  [⟨"a", 1/10, 19/20, "doc a"⟩, ⟨"b", 2/10, 9/10, "doc b"⟩,
    ⟨"c", 3/10, 17/20, "doc c"⟩]

/-- A hydration lookup for the C4 witness: `"a"` and `"c"` exist, `"b"` does
not. -/
def exampleLookup (id : String) : Option HydratedSetlist :=
  if id = "a" then
    some ⟨"a", "Artist A", "mbA", "2003-02-01", none, 1, none, "Venue V",
      some "City C", some "Country X", [⟨"Song A", 1, false⟩], none, none⟩
  else if id = "c" then
    some ⟨"c", "Artist C", "mbC", "2004-05-06", none, 1, none, "Venue W",
      none, none, [⟨"Song C", 1, false⟩], none, none⟩
  else none

/-- C4 witness: on the concrete three-hit search with one missing record,
`retrieve` returns the two hydratable records in search order with the
matching scores attached, and no more records than requested ids. -/
theorem retrieve_c4_witness :
    retrieve exampleLookup exampleSimilar
      = exampleSimilar.filterMap (fun r => (exampleLookup r.setlist_id).map
          (fun s => { s with similarity_score := some r.similarity,
                              distance := some r.distance })) ∧
    (retrieve exampleLookup exampleSimilar).length ≤ exampleSimilar.length :=
  retrieve_c4 exampleLookup exampleSimilar
    (by
      intro id s h
      unfold exampleLookup at h
      by_cases h1 : id = "a"
      · rw [if_pos h1] at h
        cases h
        exact h1.symm
      · rw [if_neg h1] at h
        by_cases h2 : id = "c"
        · rw [if_pos h2] at h
          cases h
          exact h2.symm
        · rw [if_neg h2] at h
          cases h)
    (by decide)

/-! ## Distance-to-similarity conversion (C6) -/

/-- C6: `search_similar` converts the cosine distance `d` (range `[0, 2]`)
to `s = 1 - d/2`: distance 0 gives similarity exactly 1, distance 2 gives
exactly 0, every similarity for a distance in `[0, 2]` lies in `[0, 1]`, the
conversion is antitone (higher similarity means more similar, i.e. smaller
distance), and every result returned by `search_similar` carries exactly
this conversion of its own distance. -/
theorem search_similar_c6 :
    similarityOfDistance 0 = 1 ∧
    similarityOfDistance 2 = 0 ∧
    (∀ d : ℚ, 0 ≤ d → d ≤ 2 →
      0 ≤ similarityOfDistance d ∧ similarityOfDistance d ≤ 1) ∧
    (∀ d1 d2 : ℚ, d1 ≤ d2 →
      similarityOfDistance d2 ≤ similarityOfDistance d1) ∧
    (∀ (provider : String → Except String (List ℚ))
        (collectionQuery : List ℚ → Nat → List QueryRow)
        (q : String) (k : Nat) (r : SearchResult),
      r ∈ search_similar provider collectionQuery q k →
      r.similarity = similarityOfDistance r.distance) := by
  refine ⟨by norm_num [similarityOfDistance],
    by norm_num [similarityOfDistance], ?_, ?_, ?_⟩
  · intro d h0 h2
    unfold similarityOfDistance
    constructor <;> linarith
  · intro d1 d2 h
    unfold similarityOfDistance
    linarith
  · intro provider cq q k r hr
    unfold search_similar at hr
    cases hg : generate_embedding provider q with
    | none => rw [hg] at hr; cases hr
    | some qe =>
      rw [hg] at hr
      obtain ⟨row, -, rfl⟩ := List.mem_map.mp hr
      rfl

/-- C6 witness: the bounds applied at the concrete distance 1 (similarity
one half), together with the endpoint evaluations. -/
theorem search_similar_c6_witness :
    similarityOfDistance 0 = 1 ∧
    similarityOfDistance 2 = 0 ∧
    (0 : ℚ) ≤ 1 ∧ (1 : ℚ) ≤ 2 ∧
    (0 ≤ similarityOfDistance 1 ∧ similarityOfDistance 1 ≤ 1) :=
  ⟨search_similar_c6.1, search_similar_c6.2.1, by norm_num, by norm_num,
    search_similar_c6.2.2.1 1 (by norm_num) (by norm_num)⟩

/-! ## Provider failure at query time (C10) -/

/-- C10: when the embedding-provider call for the query text fails,
`search_similar` catches the failure and returns the empty list — a provider
outage at query time surfaces to the caller as zero search hits, not as an
exception or a partial result. -/
theorem search_similar_c10 (provider : String → Except String (List ℚ))
    (collectionQuery : List ℚ → Nat → List QueryRow) (query : String)
    (top_k : Nat) (msg : String) (h : provider query = .error msg) :
    search_similar provider collectionQuery query top_k = [] := by
  unfold search_similar generate_embedding
  rw [h]

/-- C10 witness: a provider that always raises yields zero hits for a
concrete query, even with a non-empty collection answer available. -/
theorem search_similar_c10_witness :
    (fun _ : String => (Except.error "quota" : Except String (List ℚ)))
        "dark star shows" = Except.error "quota" ∧
    search_similar (fun _ => Except.error "quota")
      (fun _ _ => [⟨"a", 0, "doc a"⟩]) "dark star shows" 5 = [] :=
  ⟨rfl, search_similar_c10 _ _ "dark star shows" 5 "quota" rfl⟩

/-! ## Context formatting (C5) -/

/-- C5: `format_context` on an empty result list returns the single fixed
no-results sentinel; the setlist line of any result renders at most the first
15 regular songs — when there are more than 15 it renders exactly the first
15 plus a truncation suffix stating the total regular-song count, and when
there are 15 or fewer it renders them all with no suffix; and every result
block carrying a similarity score ends with the relevance line rendering
that score to two decimal places. -/
theorem format_context_c5 :
    format_context [] = "No relevant setlists found." ∧
    (∀ names : List String, 15 < names.length →
      songListStr names
          = String.intercalate ", " (names.take 15)
            ++ ("... (" ++ toString names.length ++ " total songs)") ∧
      (names.take 15).length = 15) ∧
    (∀ names : List String, names.length ≤ 15 →
      songListStr names = String.intercalate ", " names) ∧
    (∀ (i : Nat) (s : HydratedSetlist) (q : ℚ), s.similarity_score = some q →
      (blockParts i s).getLast?
        = some ("   Relevance: " ++ formatFixed2 q ++ "\n")) := by
  refine ⟨rfl, ?_, ?_, ?_⟩
  · intro names h
    constructor
    · unfold songListStr
      rw [if_pos h]
    · rw [List.length_take]
      omega
  · intro names h
    unfold songListStr
    rw [if_neg (by omega), List.take_of_length_le h, String.append_empty]
  · intro i s q h
    simp only [blockParts, h]
    exact List.getLast?_concat _

/-- The rational 17/20 = 0.85 in normal form (kernel-computable). -/
def score85 : ℚ := ⟨17, 20, by decide, by decide⟩

/-- The rational 3/10 = 0.3 in normal form (kernel-computable). -/
def dist30 : ℚ := ⟨3, 10, by decide, by decide⟩

/-- A hydrated setlist with 20 regular songs and similarity score 0.85, for
the C5 witness. -/
def exampleTwenty : HydratedSetlist :=
  ⟨"t", "Artist T", "mbT", "2015-07-05", some "Tour T", 20, none, "Venue T",
    some "City T", some "Country T",
    (List.range 20).map (fun n => ⟨"Song " ++ toString (n + 1), n + 1, false⟩),
    some score85, some dist30⟩

/-- C5 witness: the sentinel on `[]`; a concrete 20-regular-song result whose
setlist line shows exactly the first 15 names plus the suffix naming 20
total songs; and its block ends with `Relevance: 0.85`. -/
theorem format_context_c5_witness :
    format_context [] = "No relevant setlists found." ∧
    15 < (regularNames exampleTwenty).length ∧
    (songListStr (regularNames exampleTwenty)
        = String.intercalate ", " ((regularNames exampleTwenty).take 15)
          ++ ("... (" ++ toString (regularNames exampleTwenty).length
              ++ " total songs)") ∧
      ((regularNames exampleTwenty).take 15).length = 15) ∧
    toString (regularNames exampleTwenty).length = "20" ∧
    (blockParts 1 exampleTwenty).getLast?
      = some ("   Relevance: " ++ formatFixed2 score85 ++ "\n") ∧
    formatFixed2 score85 = "0.85" :=
  ⟨format_context_c5.1, by decide,
    format_context_c5.2.1 (regularNames exampleTwenty) (by decide),
    by decide,
    format_context_c5.2.2.2 1 exampleTwenty score85 rfl,
    by decide⟩

end SetlistAI
